import Mathlib

/-
Verification development for the face-recognition HTTP service
(Backend/face_recognition_api.py).

The service is a thin Flask handler. We give a shallow embedding:

  * JSON field values are modelled by the inductive PyVal (string, int,
    bool, None); the request payload is an Option Payload, where none
    stands for an absent or falsy JSON body.
  * Python float values for distance and threshold are modelled as
    rationals (Rat); float division by zero raises, which is modelled by
    making the division step fallible.
  * The external DeepFace.verify call is opaque; its outcome is an input
    of the handler (CapOutcome), either a structured success or a failure
    carrying an exception message.
  * The filesystem is a list of staged temporary file paths, threaded
    explicitly; the nondeterministic parts of a request (temp file names,
    staging success, unlink success, debug flag, traceback text) are
    collected in Env.
  * Fallible Python steps return Except String, the String being the
    exception text str(e).

The handler verify_faces below mirrors the source line by line; helper
definitions (b64decode, stripDataUrl, innerBody, ...) correspond to the
marked regions of the source file.
-/

deriving instance DecidableEq for Except

namespace FaceAPI

/-- A JSON field value as the Python handler can see it. -/
inductive PyVal where
  | pstr (s : String)
  | pint (n : Int)
  | pbool (b : Bool)
  | pnone
deriving DecidableEq

/-- The parsed request body: the two keys the handler looks up.
A key that is absent from the JSON object is none. -/
structure Payload where
  reference_photo : Option PyVal
  today_photo : Option PyVal
deriving DecidableEq

/-- Outcome of the opaque DeepFace.verify call: either the structured
result (verified flag, distance, threshold) or an exception message. -/
inductive CapOutcome where
  | success (verified : Bool) (distance threshold : Rat)
  | failure (msg : String)
deriving DecidableEq

/-- Per-request nondeterminism: the fresh temp file names chosen by
tempfile, whether each staging write succeeds, the capability outcome,
whether each os.unlink succeeds, the Flask debug flag and the text
traceback.format_exc would produce. -/
structure Env where
  tmpName1 : String
  tmpName2 : String
  stageOk1 : Bool
  stageOk2 : Bool
  stageMsg1 : String
  stageMsg2 : String
  capResult : CapOutcome
  unlink1Ok : Bool
  unlink2Ok : Bool
  debug : Bool
  trace : String
deriving DecidableEq

/-- The JSON response together with its HTTP status code.
distance and threshold appear only on success; error only on failure;
the traceback key is present only in the outer 500 handler, where its
value is null (modelled some none) unless debug is on. -/
structure Response where
  status : Nat
  matched : Bool
  confidence : Rat
  distance : Option Rat
  threshold : Option Rat
  error : Option String
  traceback : Option (Option String)
deriving DecidableEq

/-- Result of one request: the response, the filesystem after the
request, the temp files created during the request, and whether the
verification capability was invoked. -/
structure HandlerOut where
  resp : Response
  fs : List String
  staged : List String
  capCalled : Bool
deriving DecidableEq

/-! ### base64 decoding (Python base64.b64decode, validate=False) -/

/-- Value of one base64 alphabet character, none for a non-alphabet
character (binascii table_a2b_base64). -/
def b64Digit (c : Char) : Option Nat :=
  if 65 ≤ c.toNat ∧ c.toNat ≤ 90 then some (c.toNat - 65)
  else if 97 ≤ c.toNat ∧ c.toNat ≤ 122 then some (c.toNat - 97 + 26)
  else if 48 ≤ c.toNat ∧ c.toNat ≤ 57 then some (c.toNat - 48 + 52)
  else if c = '+' then some 62
  else if c = '/' then some 63
  else none

/-- The quad loop of binascii.a2b_base64 with strict_mode off: characters
outside the alphabet are discarded; a pad character closing a quad ends
decoding; at end of input a pending quad of one data character, or of two
or three without enough padding, raises. Arguments after the input are
the quad position, the pending bits, the running pad count and the output
accumulator. -/
def a2bLoop : List Char → Nat → Nat → Nat → List Nat → Except String (List Nat)
  | [], quadPos, _, _, acc =>
    if quadPos = 0 then .ok acc.reverse
    else if quadPos = 1 then
      .error "Invalid base64-encoded string: number of data characters cannot be 1 more than a multiple of 4"
    else .error "Incorrect padding"
  | c :: rest, quadPos, leftchar, pads, acc =>
    if c = '=' then
      if 2 ≤ quadPos ∧ 4 ≤ quadPos + pads + 1 then .ok acc.reverse
      else a2bLoop rest quadPos leftchar (pads + 1) acc
    else
      match b64Digit c with
      | none => a2bLoop rest quadPos leftchar pads acc
      | some v =>
        match quadPos with
        | 0 => a2bLoop rest 1 v 0 acc
        | 1 => a2bLoop rest 2 (v % 16) 0 ((leftchar * 4 + v / 16) :: acc)
        | 2 => a2bLoop rest 3 (v % 4) 0 ((leftchar * 16 + v / 4) :: acc)
        | _ => a2bLoop rest 0 0 0 ((leftchar * 64 + v) :: acc)

/-- base64.b64decode on a str argument: the string is first encoded as
ascii (non-ascii raises), then fed to the a2b loop. Returns the decoded
bytes or the exception message. -/
def b64decode (s : String) : Except String (List Nat) :=
  if s.toList.all (fun c => c.toNat < 128) then a2bLoop s.toList 0 0 0 []
  else .error "ascii codec cannot encode character: ordinal not in range 128"

/-! ### string helpers mirroring the Python operations used -/

/-- Python str.startswith. -/
def pyStartsWith (s pre : String) : Bool :=
  pre.toList.isPrefixOf s.toList

/-- Helper for splitting a character list at commas, Python str.split of a
single-character separator. -/
def splitCommaAux : List Char → List Char → List (List Char)
  | [], acc => [acc.reverse]
  | c :: rest, acc =>
    if c = ',' then acc.reverse :: splitCommaAux rest []
    else splitCommaAux rest (c :: acc)

/-- Python s.split with separator a comma. -/
def pySplitComma (s : String) : List String :=
  (splitCommaAux s.toList []).map fun l => String.mk l

/-- Python s.split followed by indexing with 1: the element between the
first and the second comma; raises IndexError when the string has no
comma. -/
def secondSegment (s : String) : Except String String :=
  match pySplitComma s with
  | _ :: x :: _ => .ok x
  | _ => .error "list index out of range"

/-- Lines 30 to 33 of the source applied to one field: a string starting
with the data URL marker is replaced by split(",")[1]; any other string
is kept; calling startswith on a non-string raises AttributeError. -/
def stripDataUrl : PyVal → Except String String
  | .pstr s => if pyStartsWith s "data:" then secondSegment s else .ok s
  | .pint _ => .error "int object has no attribute startswith"
  | .pbool _ => .error "bool object has no attribute startswith"
  | .pnone => .error "NoneType object has no attribute startswith"

/-- Lines 28 to 36: strip both fields, then b64decode both, in source
order; the first exception aborts the block. -/
def decodePhase (rv tv : PyVal) : Except String (List Nat × List Nat) :=
  match stripDataUrl rv with
  | .error e => .error e
  | .ok r =>
    match stripDataUrl tv with
    | .error e => .error e
    | .ok t =>
      match b64decode r with
      | .error e => .error e
      | .ok rb =>
        match b64decode t with
        | .error e => .error e
        | .ok tb => .ok (rb, tb)

/-- Whether a needle character list occurs contiguously in a haystack,
Python substring membership. -/
def listInfix (nee : List Char) : List Char → Bool
  | [] => nee.isEmpty
  | c :: rest => nee.isPrefixOf (c :: rest) || listInfix nee rest

/-- Python substring test, needle in haystack. -/
def strContains (hay nee : String) : Bool :=
  listInfix nee.toList hay.toList

/-- Line 83: the error message inspection that classifies a capability
failure as a face-detection failure. -/
def faceDetectPhrase (msg : String) : Bool :=
  strContains msg "Face could not be detected" || strContains msg "No face detected"

/-! ### confidence arithmetic -/

/-- max(0.0, min(1.0, x)). -/
def clamp01 (x : Rat) : Rat := max 0 (min 1 x)

/-- Round to the nearest integer, ties to even: the rounding Python
round uses. -/
def roundHalfEven (q : Rat) : Int :=
  if q - (⌊q⌋ : Rat) < 1/2 then ⌊q⌋
  else if 1/2 < q - (⌊q⌋ : Rat) then ⌊q⌋ + 1
  else if ⌊q⌋ % 2 = 0 then ⌊q⌋ else ⌊q⌋ + 1

/-- Python round(x, 4) on the rational model of floats. -/
def pyRound4 (q : Rat) : Rat := (roundHalfEven (q * 10000) : Rat) / 10000

/-! ### response constructors -/

/-- A 400 response body, lines 18 to 22, 38 to 42 and 84 to 88 share this
shape. -/
def clientErr (msg : String) : Response :=
  { status := 400, matched := false, confidence := 0, distance := none,
    threshold := none, error := some msg, traceback := none }

/-- Lines 17 to 22: the missing-field response. -/
def missingResp : Response :=
  clientErr "Missing reference_photo or today_photo"

/-- Lines 53 to 78, the body of the inner try: the capability call
followed by the confidence computation (with unguarded float division)
and the 200 response. An exception message is returned as error. -/
def innerBody (env : Env) : Except String Response :=
  match env.capResult with
  | .failure msg => .error msg
  | .success verified d t =>
    if t = 0 then .error "float division by zero"
    else
      .ok { status := 200, matched := verified,
            confidence := pyRound4 (clamp01 (1 - d / t)),
            distance := some (pyRound4 d), threshold := some (pyRound4 t),
            error := none, traceback := none }

/-- Lines 80 to 94, the inner except clause: a message matching the known
face-detection phrasing gives the fixed 400; anything else gives a 500
carrying the original message. -/
def innerExcept (msg : String) : Response :=
  if faceDetectPhrase msg then
    clientErr "Face could not be detected in one or both images"
  else
    { status := 500, matched := false, confidence := 0, distance := none,
      threshold := none, error := some ("Face recognition error: " ++ msg),
      traceback := none }

/-- Lines 103 to 109, the outer except clause: a 500 whose body always
has the traceback key, null unless debug is on. -/
def serverErr (env : Env) (msg : String) : Response :=
  { status := 500, matched := false, confidence := 0, distance := none,
    threshold := none, error := some ("Server error: " ++ msg),
    traceback := some (if env.debug then some env.trace else none) }

/-- Lines 95 to 101, the finally clause: unlink the first path, then the
second, a single bare except swallowing the first failure (so a failing
first unlink also skips the second). -/
def cleanup (env : Env) (fs : List String) : List String :=
  if env.unlink1Ok then
    let fs1 := fs.erase env.tmpName1
    if env.unlink2Ok then fs1.erase env.tmpName2 else fs1
  else fs

/-- The /verify handler, lines 13 to 109. The filesystem fs0 is the set
of paths present when the request starts. -/
def verify_faces (data : Option Payload) (env : Env) (fs0 : List String) : HandlerOut :=
  match data with
  | none => ⟨missingResp, fs0, [], false⟩
  | some d =>
    match d.reference_photo, d.today_photo with
    | some rv, some tv =>
      match decodePhase rv tv with
      | .error e => ⟨clientErr ("Invalid base64 image data: " ++ e), fs0, [], false⟩
      | .ok _ =>
        if env.stageOk1 then
          if env.stageOk2 then
            { resp := match innerBody env with
                      | .ok r => r
                      | .error msg => innerExcept msg,
              fs := cleanup env (fs0 ++ [env.tmpName1, env.tmpName2]),
              staged := [env.tmpName1, env.tmpName2],
              capCalled := true }
          else ⟨serverErr env env.stageMsg2, fs0 ++ [env.tmpName1], [env.tmpName1], false⟩
        else ⟨serverErr env env.stageMsg1, fs0, [], false⟩
    | some _, none => ⟨missingResp, fs0, [], false⟩
    | none, _ => ⟨missingResp, fs0, [], false⟩

/-- An environment with the two unlink outcomes replaced. -/
def withUnlinks (env : Env) (u1 u2 : Bool) : Env :=
  { env with unlink1Ok := u1, unlink2Ok := u2 }

/-- The /health response body with its status code. -/
structure HealthResponse where
  httpStatus : Nat
  statusText : String
  service : String
deriving DecidableEq

/-- Lines 111 to 113: the /health handler. Its argument is the ambient
filesystem state left by earlier requests, which it ignores. -/
def health (_fs : List String) : HealthResponse :=
  { httpStatus := 200, statusText := "ok", service := "face-recognition-api" }

/-- Whether a field value is a string. -/
def isPyStr : PyVal → Bool
  | .pstr _ => true
  | _ => false

/-! ### definitions taken from the wording of the spec, for comparison -/

/-- Modelled from the spec: the claimed stripping rule for a data URL
field, namely that everything before and including the FIRST comma is
stripped and the whole remainder is decoded. Stated for comparison with
stripDataUrl, which the source actually uses. -/
def stripSpecFirstComma (s : String) : String :=
  if pyStartsWith s "data:" then
    String.intercalate "," ((pySplitComma s).drop 1)
  else s

/-- Modelled from the spec: a string is valid base64 when it consists of
alphabet characters followed by at most two pad characters and its length
is a multiple of four. Stated for comparison with the acceptance
behaviour of b64decode. -/
def specValidBase64 (s : String) : Bool :=
  let cs := s.toList
  let dat := cs.takeWhile fun c => (b64Digit c).isSome
  let pad := cs.drop dat.length
  pad.all (fun c => c = '=') && decide (pad.length ≤ 2) && decide (cs.length % 4 = 0)

/-! ### concrete fixtures used by witnesses and counterexamples -/

/-- An environment where staging and unlinking succeed and the capability
fails with the given message. -/
def envFail (m : String) : Env :=
  { tmpName1 := "t1.jpg", tmpName2 := "t2.jpg", stageOk1 := true, stageOk2 := true,
    stageMsg1 := "write error 1", stageMsg2 := "write error 2",
    capResult := .failure m, unlink1Ok := true, unlink2Ok := true,
    debug := false, trace := "tb" }

/-- An environment where everything succeeds and the capability returns
verified with distance 1 and threshold 2. -/
def envOkW : Env :=
  { tmpName1 := "t1.jpg", tmpName2 := "t2.jpg", stageOk1 := true, stageOk2 := true,
    stageMsg1 := "write error 1", stageMsg2 := "write error 2",
    capResult := .success true 1 2, unlink1Ok := true, unlink2Ok := true,
    debug := false, trace := "tb" }

/-- An environment whose capability result carries threshold zero. -/
def envZero : Env :=
  { tmpName1 := "t1.jpg", tmpName2 := "t2.jpg", stageOk1 := true, stageOk2 := true,
    stageMsg1 := "write error 1", stageMsg2 := "write error 2",
    capResult := .success true 1 0, unlink1Ok := true, unlink2Ok := true,
    debug := false, trace := "tb" }

/-- An environment where writing the first temporary file fails. -/
def envStageFail : Env :=
  { tmpName1 := "t1.jpg", tmpName2 := "t2.jpg", stageOk1 := false, stageOk2 := true,
    stageMsg1 := "write error 1", stageMsg2 := "write error 2",
    capResult := .failure "m", unlink1Ok := true, unlink2Ok := true,
    debug := false, trace := "tb" }

/-- A well-formed payload: two plain base64 strings. -/
def payloadW : Option Payload := some ⟨some (.pstr "QUJD"), some (.pstr "QUJD")⟩

/-! ### arithmetic lemmas about rounding and clamping -/

theorem roundHalfEven_nonneg (q : Rat) (h : 0 ≤ q) : 0 ≤ roundHalfEven q := by
  have hf : (0 : Int) ≤ ⌊q⌋ := Int.floor_nonneg.mpr h
  unfold roundHalfEven
  split
  · exact hf
  · split
    · omega
    · split <;> omega

theorem roundHalfEven_le_of_le (q : Rat) (n : Int) (h : q ≤ (n : Rat)) :
    roundHalfEven q ≤ n := by
  have hfn : ⌊q⌋ ≤ n := by
    have h2 := Int.floor_le_floor h
    simpa using h2
  have hkey : (1 : Rat)/2 ≤ q - (⌊q⌋ : Rat) → ⌊q⌋ < n := by
    intro hge
    have h4 : ((⌊q⌋ : Int) : Rat) < (n : Rat) := by linarith
    exact_mod_cast h4
  unfold roundHalfEven
  split
  · exact hfn
  · rename_i hlt
    push_neg at hlt
    have hlt2 := hkey hlt
    split
    · omega
    · split <;> omega

theorem pyRound4_nonneg (x : Rat) (h : 0 ≤ x) : 0 ≤ pyRound4 x := by
  have h1 : (0 : Rat) ≤ x * 10000 := by nlinarith
  have h2 := roundHalfEven_nonneg _ h1
  have h3 : (0 : Rat) ≤ (roundHalfEven (x * 10000) : Rat) := by exact_mod_cast h2
  unfold pyRound4
  exact div_nonneg h3 (by norm_num)

theorem pyRound4_le_one (x : Rat) (h : x ≤ 1) : pyRound4 x ≤ 1 := by
  have h1 : x * 10000 ≤ ((10000 : Int) : Rat) := by push_cast; nlinarith
  have h2 := roundHalfEven_le_of_le _ 10000 h1
  unfold pyRound4
  rw [div_le_one (by norm_num)]
  exact_mod_cast h2

theorem clamp01_nonneg (x : Rat) : 0 ≤ clamp01 x := le_max_left 0 _

theorem clamp01_le_one (x : Rat) : clamp01 x ≤ 1 := max_le (by norm_num) (min_le_left 1 x)

/-! ### structural lemmas about the handler -/

theorem erase_append_notmem (a : String) (l1 l2 : List String) (h : a ∉ l1) :
    (l1 ++ l2).erase a = l1 ++ l2.erase a := by
  induction l1 with
  | nil => simp
  | cons x xs ih =>
    simp only [List.mem_cons, not_or] at h
    obtain ⟨hne, hmem⟩ := h
    have hxa : (x == a) = false := beq_eq_false_iff_ne.mpr (fun he => hne he.symm)
    rw [List.cons_append, List.erase_cons, hxa]
    simp [ih hmem]

theorem innerBody_withUnlinks (env : Env) (u1 u2 : Bool) :
    innerBody (withUnlinks env u1 u2) = innerBody env := rfl

theorem innerExcept_traceback (msg : String) : (innerExcept msg).traceback = none := by
  unfold innerExcept
  split <;> rfl

/-- The response produced by the inner try and except region never has a
traceback key. -/
theorem innerResp_traceback (env : Env) :
    (match innerBody env with
     | .ok r => r
     | .error msg => innerExcept msg).traceback = none := by
  unfold innerBody
  rcases hc : env.capResult with ⟨v, d, t⟩ | m
  · by_cases ht : t = 0
    · simp [ht, innerExcept_traceback]
    · simp [ht]
  · simp [innerExcept_traceback]

/-- When the capability was invoked, the request went through the full
staging branch: the response is the inner try result and the filesystem
went through cleanup. -/
theorem capCalled_shape (data : Option Payload) (env : Env) (fs0 : List String)
    (hcall : (verify_faces data env fs0).capCalled = true) :
    (∀ r, innerBody env = .ok r → (verify_faces data env fs0).resp = r)
    ∧ (∀ m, innerBody env = .error m → (verify_faces data env fs0).resp = innerExcept m)
    ∧ (verify_faces data env fs0).fs = cleanup env (fs0 ++ [env.tmpName1, env.tmpName2]) := by
  rcases data with _ | ⟨rp, tp⟩
  · simp [verify_faces] at hcall
  rcases rp with _ | rv
  · simp [verify_faces] at hcall
  rcases tp with _ | tv
  · simp [verify_faces] at hcall
  rcases hdec : decodePhase rv tv with e | w
  · simp [verify_faces, hdec] at hcall
  rcases hs1 : env.stageOk1 with _ | _
  · simp [verify_faces, hdec, hs1] at hcall
  rcases hs2 : env.stageOk2 with _ | _
  · simp [verify_faces, hdec, hs1, hs2] at hcall
  refine ⟨?_, ?_, ?_⟩
  · intro r h
    simp [verify_faces, hdec, hs1, hs2, h]
  · intro m h
    simp [verify_faces, hdec, hs1, hs2, h]
  · simp [verify_faces, hdec, hs1, hs2]

/-- A 200 response can only come from a successful inner body. -/
theorem status200_shape (data : Option Payload) (env : Env) (fs0 : List String)
    (h200 : (verify_faces data env fs0).resp.status = 200) :
    ∃ r, innerBody env = .ok r ∧ (verify_faces data env fs0).resp = r := by
  rcases data with _ | ⟨rp, tp⟩
  · simp [verify_faces, missingResp, clientErr] at h200
  rcases rp with _ | rv
  · simp [verify_faces, missingResp, clientErr] at h200
  rcases tp with _ | tv
  · simp [verify_faces, missingResp, clientErr] at h200
  rcases hdec : decodePhase rv tv with e | w
  · simp [verify_faces, hdec, clientErr] at h200
  rcases hs1 : env.stageOk1 with _ | _
  · simp [verify_faces, hdec, hs1, serverErr] at h200
  rcases hs2 : env.stageOk2 with _ | _
  · simp [verify_faces, hdec, hs1, hs2, serverErr] at h200
  rcases hib : innerBody env with m | r
  · have hresp : (verify_faces (some ⟨some rv, some tv⟩) env fs0).resp = innerExcept m := by
      simp [verify_faces, hdec, hs1, hs2, hib]
    rw [hresp] at h200
    unfold innerExcept at h200
    rcases hph : faceDetectPhrase m with _ | _ <;> simp [hph, clientErr] at h200
  · exact ⟨r, rfl, by simp [verify_faces, hdec, hs1, hs2, hib]⟩

/-- A non-string in either field makes the decode region raise. -/
theorem decodePhase_nonstring (rv tv : PyVal)
    (h : isPyStr rv = false ∨ isPyStr tv = false) :
    ∃ e, decodePhase rv tv = .error e := by
  rcases h with h | h
  · cases rv with
    | pstr s => simp [isPyStr] at h
    | pint n => exact ⟨_, rfl⟩
    | pbool b => exact ⟨_, rfl⟩
    | pnone => exact ⟨_, rfl⟩
  · have htv : ∃ em, stripDataUrl tv = .error em := by
      cases tv with
      | pstr s => simp [isPyStr] at h
      | pint n => exact ⟨_, rfl⟩
      | pbool b => exact ⟨_, rfl⟩
      | pnone => exact ⟨_, rfl⟩
    obtain ⟨em, htv⟩ := htv
    rcases hsr : stripDataUrl rv with e | r
    · exact ⟨e, by simp [decodePhase, hsr]⟩
    · exact ⟨em, by simp [decodePhase, hsr, htv]⟩

/-! ### the claims -/

/-- C1: whenever a /verify request ends in a 200 response and the
capability succeeded with distance d and threshold t, the response
carries confidence round(clamp(1 - d/t, 0, 1), 4), which lies in [0, 1],
together with d and t rounded to 4 decimal digits and the verified
flag. -/
theorem C1_success_response (data : Option Payload) (env : Env) (fs0 : List String)
    (v : Bool) (d t : Rat)
    (hcap : env.capResult = .success v d t)
    (h200 : (verify_faces data env fs0).resp.status = 200) :
    (verify_faces data env fs0).resp.confidence = pyRound4 (clamp01 (1 - d / t))
    ∧ 0 ≤ (verify_faces data env fs0).resp.confidence
    ∧ (verify_faces data env fs0).resp.confidence ≤ 1
    ∧ (verify_faces data env fs0).resp.distance = some (pyRound4 d)
    ∧ (verify_faces data env fs0).resp.threshold = some (pyRound4 t)
    ∧ (verify_faces data env fs0).resp.matched = v := by
  obtain ⟨r, hib, hr⟩ := status200_shape data env fs0 h200
  unfold innerBody at hib
  rw [hcap] at hib
  by_cases ht : t = 0
  · simp [ht] at hib
  · simp only [ht, if_false] at hib
    rw [Except.ok.injEq] at hib
    rw [hr, ← hib]
    exact ⟨rfl, pyRound4_nonneg _ (clamp01_nonneg _), pyRound4_le_one _ (clamp01_le_one _),
           rfl, rfl, rfl⟩

/-- Witness for C1 at a concrete request: both fields decode, staging
succeeds, the capability returns distance 1 and threshold 2. -/
theorem C1_success_response_witness :
    envOkW.capResult = .success true 1 2
    ∧ (verify_faces payloadW envOkW []).resp.status = 200
    ∧ ((verify_faces payloadW envOkW []).resp.confidence = pyRound4 (clamp01 (1 - 1 / 2))
       ∧ 0 ≤ (verify_faces payloadW envOkW []).resp.confidence
       ∧ (verify_faces payloadW envOkW []).resp.confidence ≤ 1
       ∧ (verify_faces payloadW envOkW []).resp.distance = some (pyRound4 1)
       ∧ (verify_faces payloadW envOkW []).resp.threshold = some (pyRound4 2)
       ∧ (verify_faces payloadW envOkW []).resp.matched = true) :=
  ⟨rfl, by decide, C1_success_response payloadW envOkW [] true 1 2 rfl (by decide)⟩

/-- C2: when both temporary files are staged and both unlink calls
succeed, the filesystem after the request equals the filesystem before
it, whatever the capability outcome (success, detection failure or any
other error); and the response never depends on whether the unlink calls
succeed. -/
theorem C2_cleanup (data : Option Payload) (env : Env) (fs0 : List String)
    (hs1 : env.stageOk1 = true) (hs2 : env.stageOk2 = true)
    (hu1 : env.unlink1Ok = true) (hu2 : env.unlink2Ok = true)
    (hf1 : env.tmpName1 ∉ fs0) (hf2 : env.tmpName2 ∉ fs0) :
    (verify_faces data env fs0).fs = fs0
    ∧ ∀ u1 u2, (verify_faces data (withUnlinks env u1 u2) fs0).resp
        = (verify_faces data env fs0).resp := by
  have e1 : (fs0 ++ [env.tmpName1, env.tmpName2]).erase env.tmpName1
      = fs0 ++ [env.tmpName2] := by
    rw [erase_append_notmem _ _ _ hf1]
    simp [List.erase_cons]
  have e2 : (fs0 ++ [env.tmpName2]).erase env.tmpName2 = fs0 := by
    rw [erase_append_notmem _ _ _ hf2]
    simp [List.erase_cons]
  constructor
  · rcases data with _ | ⟨rp, tp⟩
    · rfl
    rcases rp with _ | rv
    · rfl
    rcases tp with _ | tv
    · rfl
    rcases hdec : decodePhase rv tv with e | w
    · simp [verify_faces, hdec]
    · simp only [verify_faces, hdec, hs1, hs2, if_true]
      simp only [cleanup, hu1, hu2, if_true]
      rw [e1, e2]
  · intro u1 u2
    rcases data with _ | ⟨rp, tp⟩
    · rfl
    rcases rp with _ | rv
    · rfl
    rcases tp with _ | tv
    · rfl
    rcases hdec : decodePhase rv tv with e | w
    · simp [verify_faces, hdec]
    · simp only [verify_faces, hdec, withUnlinks, hs1, hs2, if_true]
      rfl

/-- Witness for C2 at a concrete request with fresh names and a
capability failure. -/
theorem C2_cleanup_witness :
    (envFail "m").stageOk1 = true
    ∧ (envFail "m").stageOk2 = true
    ∧ (envFail "m").unlink1Ok = true
    ∧ (envFail "m").unlink2Ok = true
    ∧ (envFail "m").tmpName1 ∉ ([] : List String)
    ∧ (envFail "m").tmpName2 ∉ ([] : List String)
    ∧ ((verify_faces payloadW (envFail "m") []).fs = []
       ∧ ∀ u1 u2, (verify_faces payloadW (withUnlinks (envFail "m") u1 u2) []).resp
           = (verify_faces payloadW (envFail "m") []).resp) :=
  ⟨rfl, rfl, rfl, rfl, by simp, by simp,
   C2_cleanup payloadW (envFail "m") [] rfl rfl rfl rfl (by simp) (by simp)⟩

/-- C3: a capability failure whose message contains a known
no-face-detected phrasing yields the exact 400 detection response
(match false, confidence 0); any other capability failure yields a 500
with match false, confidence 0 and an error text carrying the original
message. -/
theorem C3_capability_failure (data : Option Payload) (env : Env) (fs0 : List String)
    (msg : String)
    (hcap : env.capResult = .failure msg)
    (hcall : (verify_faces data env fs0).capCalled = true) :
    (faceDetectPhrase msg = true →
      (verify_faces data env fs0).resp
        = clientErr "Face could not be detected in one or both images")
    ∧ (faceDetectPhrase msg = false →
      (verify_faces data env fs0).resp.status = 500
      ∧ (verify_faces data env fs0).resp.matched = false
      ∧ (verify_faces data env fs0).resp.confidence = 0
      ∧ (verify_faces data env fs0).resp.error
          = some ("Face recognition error: " ++ msg)) := by
  obtain ⟨-, herr, -⟩ := capCalled_shape data env fs0 hcall
  have hib : innerBody env = .error msg := by
    unfold innerBody
    rw [hcap]
  have hresp := herr msg hib
  rw [hresp]
  constructor
  · intro hph
    unfold innerExcept
    rw [hph]
    rfl
  · intro hph
    unfold innerExcept
    rw [hph]
    exact ⟨rfl, rfl, rfl, rfl⟩

/-- Witness for C3 at a concrete request whose capability failure message
contains a no-face-detected phrasing. -/
theorem C3_capability_failure_witness :
    (envFail "No face detected in either image").capResult
      = .failure "No face detected in either image"
    ∧ (verify_faces payloadW (envFail "No face detected in either image") []).capCalled = true
    ∧ ((faceDetectPhrase "No face detected in either image" = true →
        (verify_faces payloadW (envFail "No face detected in either image") []).resp
          = clientErr "Face could not be detected in one or both images")
       ∧ (faceDetectPhrase "No face detected in either image" = false →
        (verify_faces payloadW (envFail "No face detected in either image") []).resp.status = 500
        ∧ (verify_faces payloadW (envFail "No face detected in either image") []).resp.matched = false
        ∧ (verify_faces payloadW (envFail "No face detected in either image") []).resp.confidence = 0
        ∧ (verify_faces payloadW (envFail "No face detected in either image") []).resp.error
            = some ("Face recognition error: " ++ "No face detected in either image"))) :=
  ⟨rfl, by decide,
   C3_capability_failure payloadW (envFail "No face detected in either image") []
     "No face detected in either image" rfl (by decide)⟩

/-- C4 counterexample: on a data URL value containing a second comma the
handler keeps only the text between the first and the second comma, not
everything after the first comma as the claim states, and the difference
is observable: the handler proceeds past decoding (here to a 500 from the
stubbed capability), while a request carrying exactly the remainder the
claim prescribes is rejected with a 400, because that remainder does not
decode. -/
theorem C4_counterexample :
    stripDataUrl (.pstr "data:img,QUJD,A") = .ok "QUJD"
    ∧ stripSpecFirstComma "data:img,QUJD,A" = "QUJD,A"
    ∧ "QUJD" ≠ "QUJD,A"
    ∧ (b64decode "QUJD").isOk = true
    ∧ (b64decode "QUJD,A").isOk = false
    ∧ (verify_faces (some ⟨some (.pstr "data:img,QUJD,A"), some (.pstr "")⟩)
        (envFail "boom") []).resp.status = 500
    ∧ (verify_faces (some ⟨some (.pstr "QUJD,A"), some (.pstr "")⟩)
        (envFail "boom") []).resp.status = 400 :=
  ⟨by decide, by decide, by decide, by decide, by decide, by decide, by decide⟩

/-- C4 as amended: a string field starting with the data URL marker is
treated exactly as if the request had carried the second comma-separated
segment of that string (the text between the first and second commas); a
string field not starting with the marker is decoded unchanged; and a
marker-prefixed field with no comma raises an IndexError that is handled
as a decode failure. -/
theorem C4_second_segment (s a x : String) (r : List String) (tv : PyVal)
    (env : Env) (fs0 : List String)
    (hs : pyStartsWith s "data:" = true)
    (hsplit : pySplitComma s = a :: x :: r)
    (hx : pyStartsWith x "data:" = false) :
    verify_faces (some ⟨some (.pstr s), some tv⟩) env fs0
      = verify_faces (some ⟨some (.pstr x), some tv⟩) env fs0
    ∧ (∀ s2, pyStartsWith s2 "data:" = false → stripDataUrl (.pstr s2) = .ok s2)
    ∧ (∀ s3 a3, pyStartsWith s3 "data:" = true → pySplitComma s3 = [a3] →
        stripDataUrl (.pstr s3) = .error "list index out of range") := by
  have hstrip1 : stripDataUrl (.pstr s) = .ok x := by
    simp [stripDataUrl, hs, secondSegment, hsplit]
  have hstrip2 : stripDataUrl (.pstr x) = .ok x := by
    simp [stripDataUrl, hx]
  have hd : decodePhase (.pstr s) tv = decodePhase (.pstr x) tv := by
    unfold decodePhase
    rw [hstrip1, hstrip2]
  refine ⟨by simp [verify_faces, hd], ?_, ?_⟩
  · intro s2 h2
    simp [stripDataUrl, h2]
  · intro s3 a3 h3 hsp
    simp [stripDataUrl, h3, secondSegment, hsp]

/-- Witness for the amended C4 at a concrete data URL with a second
comma. -/
theorem C4_second_segment_witness :
    pyStartsWith "data:i,QQ==,ZZ" "data:" = true
    ∧ pySplitComma "data:i,QQ==,ZZ" = ["data:i", "QQ==", "ZZ"]
    ∧ pyStartsWith "QQ==" "data:" = false
    ∧ (verify_faces (some ⟨some (.pstr "data:i,QQ==,ZZ"), some (.pstr "")⟩) (envFail "boom") []
        = verify_faces (some ⟨some (.pstr "QQ=="), some (.pstr "")⟩) (envFail "boom") []
       ∧ (∀ s2, pyStartsWith s2 "data:" = false → stripDataUrl (.pstr s2) = .ok s2)
       ∧ (∀ s3 a3, pyStartsWith s3 "data:" = true → pySplitComma s3 = [a3] →
           stripDataUrl (.pstr s3) = .error "list index out of range")) :=
  ⟨by decide, by decide, by decide,
   C4_second_segment "data:i,QQ==,ZZ" "data:i" "QQ==" ["ZZ"] (.pstr "") (envFail "boom") []
     (by decide) (by decide) (by decide)⟩

/-- C5 counterexample: the string of three exclamation marks is not valid
base64, yet the decoder discards the non-alphabet characters and succeeds
with an empty byte string, so the request is not rejected with a 400: the
handler proceeds to staging and the capability (here a 500 from the
stubbed capability failure). -/
theorem C5_counterexample :
    specValidBase64 "!!!" = false
    ∧ b64decode "!!!" = .ok []
    ∧ (verify_faces (some ⟨some (.pstr "!!!"), some (.pstr "")⟩)
        (envFail "boom") []).resp.status = 500
    ∧ ¬ (verify_faces (some ⟨some (.pstr "!!!"), some (.pstr "")⟩)
        (envFail "boom") []).resp.status = 400 :=
  ⟨by decide, by decide, by decide, by decide⟩

/-- C5 as amended: whenever the decode region raises on either field
(bad padding, a data character count that is 1 more than a multiple of 4,
or a non-ascii string; not every non-base64 string, since non-alphabet
characters are silently discarded), the request is rejected with a 400
whose error names invalid base64 and carries the exception text, match
false, confidence 0, with no staging and no capability call. -/
theorem C5_decode_error (rv tv : PyVal) (env : Env) (fs0 : List String) (e : String)
    (hdec : decodePhase rv tv = .error e) :
    verify_faces (some ⟨some rv, some tv⟩) env fs0
      = ⟨clientErr ("Invalid base64 image data: " ++ e), fs0, [], false⟩
    ∧ (clientErr ("Invalid base64 image data: " ++ e)).status = 400
    ∧ (clientErr ("Invalid base64 image data: " ++ e)).matched = false
    ∧ (clientErr ("Invalid base64 image data: " ++ e)).confidence = 0 := by
  refine ⟨?_, rfl, rfl, rfl⟩
  simp [verify_faces, hdec]

/-- Witness for the amended C5: a three data character string has
incorrect padding and is rejected with the 400 shape. -/
theorem C5_decode_error_witness :
    decodePhase (.pstr "abc") (.pstr "") = .error "Incorrect padding"
    ∧ (verify_faces (some ⟨some (.pstr "abc"), some (.pstr "")⟩) (envFail "m") []
        = ⟨clientErr ("Invalid base64 image data: " ++ "Incorrect padding"), [], [], false⟩
       ∧ (clientErr ("Invalid base64 image data: " ++ "Incorrect padding")).status = 400
       ∧ (clientErr ("Invalid base64 image data: " ++ "Incorrect padding")).matched = false
       ∧ (clientErr ("Invalid base64 image data: " ++ "Incorrect padding")).confidence = 0) :=
  ⟨by decide,
   C5_decode_error (.pstr "abc") (.pstr "") (envFail "m") [] "Incorrect padding" (by decide)⟩

/-- C6: an absent payload, or a payload missing either key, produces
exactly the 400 missing-field response, the filesystem is untouched, no
temporary file is created and the capability is not invoked. -/
theorem C6_missing (data : Option Payload) (env : Env) (fs0 : List String)
    (h : data = none
      ∨ ∃ p, data = some p ∧ (p.reference_photo = none ∨ p.today_photo = none)) :
    verify_faces data env fs0 = ⟨missingResp, fs0, [], false⟩
    ∧ missingResp.status = 400
    ∧ missingResp.error = some "Missing reference_photo or today_photo"
    ∧ missingResp.matched = false
    ∧ missingResp.confidence = 0 := by
  refine ⟨?_, rfl, rfl, rfl, rfl⟩
  rcases h with rfl | ⟨⟨rp, tp⟩, rfl, h1 | h1⟩
  · rfl
  · cases rp with
    | none => cases tp <;> rfl
    | some q => exact absurd h1 (by simp)
  · cases tp with
    | none => cases rp <;> rfl
    | some q => exact absurd h1 (by simp)

/-- Witness for C6 with an absent payload. -/
theorem C6_missing_witness :
    ((none : Option Payload) = none
      ∨ ∃ p, (none : Option Payload) = some p
        ∧ (p.reference_photo = none ∨ p.today_photo = none))
    ∧ (verify_faces none (envFail "m") [] = ⟨missingResp, [], [], false⟩
       ∧ missingResp.status = 400
       ∧ missingResp.error = some "Missing reference_photo or today_photo"
       ∧ missingResp.matched = false
       ∧ missingResp.confidence = 0) :=
  ⟨Or.inl rfl, C6_missing none (envFail "m") [] (Or.inl rfl)⟩

/-- C7: a response built at the outer failure boundary (recognizable by
its traceback key, which no other response carries) is a 500 with match
false, confidence 0, an error description, and a traceback value that is
the stack trace when debug mode is on and null otherwise. -/
theorem C7_outer_boundary (data : Option Payload) (env : Env) (fs0 : List String)
    (h : (verify_faces data env fs0).resp.traceback ≠ none) :
    (verify_faces data env fs0).resp.status = 500
    ∧ (verify_faces data env fs0).resp.matched = false
    ∧ (verify_faces data env fs0).resp.confidence = 0
    ∧ (∃ m, (verify_faces data env fs0).resp.error = some ("Server error: " ++ m))
    ∧ (verify_faces data env fs0).resp.traceback
        = some (if env.debug then some env.trace else none)
    ∧ (env.debug = false → (verify_faces data env fs0).resp.traceback = some none) := by
  rcases data with _ | ⟨rp, tp⟩
  · exact absurd rfl h
  rcases rp with _ | rv
  · exact absurd rfl h
  rcases tp with _ | tv
  · exact absurd rfl h
  rcases hdec : decodePhase rv tv with e | w
  · simp [verify_faces, hdec, clientErr] at h
  rcases hs1 : env.stageOk1 with _ | _
  · refine ⟨?_, ?_, ?_, ⟨env.stageMsg1, ?_⟩, ?_, ?_⟩ <;>
      simp [verify_faces, hdec, hs1, serverErr]
  rcases hs2 : env.stageOk2 with _ | _
  · refine ⟨?_, ?_, ?_, ⟨env.stageMsg2, ?_⟩, ?_, ?_⟩ <;>
      simp [verify_faces, hdec, hs1, hs2, serverErr]
  · have hresp := innerResp_traceback env
    simp only [verify_faces, hdec, hs1, hs2, if_true] at h
    exact absurd hresp h

/-- Witness for C7: staging of the first temporary file fails. -/
theorem C7_outer_boundary_witness :
    (verify_faces payloadW envStageFail []).resp.traceback ≠ none
    ∧ ((verify_faces payloadW envStageFail []).resp.status = 500
       ∧ (verify_faces payloadW envStageFail []).resp.matched = false
       ∧ (verify_faces payloadW envStageFail []).resp.confidence = 0
       ∧ (∃ m, (verify_faces payloadW envStageFail []).resp.error
           = some ("Server error: " ++ m))
       ∧ (verify_faces payloadW envStageFail []).resp.traceback
           = some (if envStageFail.debug then some envStageFail.trace else none)
       ∧ (envStageFail.debug = false →
           (verify_faces payloadW envStageFail []).resp.traceback = some none)) :=
  ⟨by decide, C7_outer_boundary payloadW envStageFail [] (by decide)⟩

/-- C8: the /health handler returns 200 with exactly status ok and
service face-recognition-api, whatever filesystem state earlier /verify
requests left behind. -/
theorem C8_health (fs fs2 : List String) :
    health fs = { httpStatus := 200, statusText := "ok", service := "face-recognition-api" }
    ∧ health fs = health fs2 :=
  ⟨rfl, rfl⟩

/-- C9: a capability success with threshold 0 makes the unguarded
division raise; the inner handler catches it and reports a 500
capability error with match false and confidence 0, carrying the float
division by zero message, and no success fields. -/
theorem C9_zero_threshold (data : Option Payload) (env : Env) (fs0 : List String)
    (v : Bool) (d : Rat)
    (hcap : env.capResult = .success v d 0)
    (hcall : (verify_faces data env fs0).capCalled = true) :
    (verify_faces data env fs0).resp.status = 500
    ∧ (verify_faces data env fs0).resp.matched = false
    ∧ (verify_faces data env fs0).resp.confidence = 0
    ∧ (verify_faces data env fs0).resp.error
        = some "Face recognition error: float division by zero"
    ∧ (verify_faces data env fs0).resp.distance = none
    ∧ (verify_faces data env fs0).resp.threshold = none := by
  obtain ⟨-, herr, -⟩ := capCalled_shape data env fs0 hcall
  have hib : innerBody env = .error "float division by zero" := by
    unfold innerBody
    rw [hcap]
    simp
  have hresp := herr _ hib
  rw [hresp]
  have hph : faceDetectPhrase "float division by zero" = false := by decide
  unfold innerExcept
  rw [hph]
  exact ⟨rfl, rfl, rfl, rfl, rfl, rfl⟩

/-- Witness for C9 at a concrete request whose capability result has
threshold 0. -/
theorem C9_zero_threshold_witness :
    envZero.capResult = .success true 1 0
    ∧ (verify_faces payloadW envZero []).capCalled = true
    ∧ ((verify_faces payloadW envZero []).resp.status = 500
       ∧ (verify_faces payloadW envZero []).resp.matched = false
       ∧ (verify_faces payloadW envZero []).resp.confidence = 0
       ∧ (verify_faces payloadW envZero []).resp.error
           = some "Face recognition error: float division by zero"
       ∧ (verify_faces payloadW envZero []).resp.distance = none
       ∧ (verify_faces payloadW envZero []).resp.threshold = none) :=
  ⟨rfl, by decide, C9_zero_threshold payloadW envZero [] true 1 rfl (by decide)⟩

/-- C10: a request whose reference or today field is present but not a
string is rejected like a decode failure: 400, match false, confidence 0,
error message beginning with the invalid base64 prefix. -/
theorem C10_nonstring_field (rv tv : PyVal) (env : Env) (fs0 : List String)
    (h : isPyStr rv = false ∨ isPyStr tv = false) :
    (verify_faces (some ⟨some rv, some tv⟩) env fs0).resp.status = 400
    ∧ (verify_faces (some ⟨some rv, some tv⟩) env fs0).resp.matched = false
    ∧ (verify_faces (some ⟨some rv, some tv⟩) env fs0).resp.confidence = 0
    ∧ ∃ e, (verify_faces (some ⟨some rv, some tv⟩) env fs0).resp.error
        = some ("Invalid base64 image data: " ++ e) := by
  obtain ⟨e, hdec⟩ := decodePhase_nonstring rv tv h
  refine ⟨?_, ?_, ?_, ⟨e, ?_⟩⟩ <;> simp [verify_faces, hdec, clientErr]

/-- Witness for C10 with an integer in the reference field. -/
theorem C10_nonstring_field_witness :
    (isPyStr (.pint 5) = false ∨ isPyStr (.pstr "") = false)
    ∧ ((verify_faces (some ⟨some (.pint 5), some (.pstr "")⟩) (envFail "m") []).resp.status = 400
       ∧ (verify_faces (some ⟨some (.pint 5), some (.pstr "")⟩) (envFail "m") []).resp.matched = false
       ∧ (verify_faces (some ⟨some (.pint 5), some (.pstr "")⟩) (envFail "m") []).resp.confidence = 0
       ∧ ∃ e, (verify_faces (some ⟨some (.pint 5), some (.pstr "")⟩) (envFail "m") []).resp.error
           = some ("Invalid base64 image data: " ++ e)) :=
  ⟨Or.inl rfl, C10_nonstring_field (.pint 5) (.pstr "") (envFail "m") [] (Or.inl rfl)⟩

end FaceAPI
